import Mathlib

/-!
Shallow embedding of the GitHub event-context normalizer of the
pixee/pixee-actions repository (file src/github.ts), together with proofs
about its behaviour.

Modelling conventions:
- JavaScript values that may be absent (TypeScript optional fields, properties
  read from objects typed as any) are embedded as Option.
- Property access on an undefined value throws a TypeError in JavaScript;
  fallible computations therefore return Except JsError.
- Optional chaining (a?.b) short-circuits to undefined when a is undefined;
  it is embedded as a match on the Option.
- The ambient global github.context is passed as an explicit Context argument,
  and the action inputs / octokit API client as an explicit ActionEnv argument.
- The single outbound API call of the workflow_dispatch path is instrumented:
  functions on that path also return the list of pulls.get calls performed,
  so that claims about the number of API calls can be stated.
-/

namespace PixeeActions

/-- Repository coordinates, as in the RepositoryInfo interface of github.ts. -/
structure RepositoryInfo where
  owner : String
  repo : String
deriving Repr, DecidableEq

/-- Normalized pull-request information, as in the PullRequestInfo interface of
github.ts. The TypeScript type declares sha as a plain string, but the
implementation can in fact produce undefined for it (the payload fields it
reads are typed any), so it is embedded as Option String. -/
structure PullRequestInfo where
  sha : Option String
  prNumber : Option Int
deriving Repr, DecidableEq

/-- The normalized GitHub context, the spread-merge of RepositoryInfo and
PullRequestInfo (GitHubContext = RepositoryInfo & PullRequestInfo). -/
structure GitHubContext where
  owner : String
  repo : String
  sha : Option String
  prNumber : Option Int
deriving Repr, DecidableEq

/-- The head object of a pull_request webhook payload; its sha property may be
absent at runtime. -/
structure PRHead where
  sha : Option String
deriving Repr, DecidableEq

/-- The pull_request object of a webhook payload: its number and head may be
absent at runtime (the payload is typed any in the TypeScript source). -/
structure PullRequestPayload where
  number : Option Int
  head : Option PRHead
deriving Repr, DecidableEq

/-- The issue object of a webhook payload. -/
structure IssuePayload where
  number : Option Int
deriving Repr, DecidableEq

/-- One entry of the pull_requests array of a check_run payload. -/
structure PullRequestRef where
  number : Option Int
deriving Repr, DecidableEq

/-- The check_run object of a webhook payload: head_sha and the pull_requests
array may each be absent. -/
structure CheckRunPayload where
  head_sha : Option String
  pull_requests : Option (List PullRequestRef)
deriving Repr, DecidableEq

/-- The event payload (WebhookPayload of the actions toolkit), restricted to
the properties the normalizer reads. -/
structure WebhookPayload where
  issue : Option IssuePayload
  pull_request : Option PullRequestPayload
  check_run : Option CheckRunPayload
  number : Option Int
deriving Repr, DecidableEq

/-- The ambient trigger context (github.context): event name, git ref, ambient
commit sha, repository coordinates and the event payload. -/
structure Context where
  eventName : String
  ref : String
  sha : String
  repo : RepositoryInfo
  payload : WebhookPayload
deriving Repr, DecidableEq

/-- A JavaScript runtime failure surfaced by the normalizer: a TypeError from
dereferencing undefined (or calling undefined as a function), or a rejected
API request. -/
inductive JsError where
  | typeError
  | apiFailure
deriving Repr, DecidableEq

/-- The head object of a pulls.get API response (collaborator contract:
getPullRequest returns a record containing head.sha). -/
structure ResponseHead where
  sha : String
deriving Repr, DecidableEq

/-- The data object of a pulls.get API response. -/
structure ResponseData where
  head : ResponseHead
deriving Repr, DecidableEq

/-- A pulls.get API response (response.data.head.sha is the field read). -/
structure PullsGetResponse where
  data : ResponseData
deriving Repr, DecidableEq

/-- The arguments of one octokit pulls.get call: the authentication token the
client was built with, and the owner, repo and pull_number request parameters.
pull_number is Option Int because parseInt can produce NaN. -/
structure PullsGetCall where
  token : String
  owner : String
  repo : String
  pull_number : Option Int
deriving Repr, DecidableEq

/-- The ambient action environment: core.getInput (returns the empty string
for an unset input) and the octokit pulls.get endpoint, which may reject. -/
structure ActionEnv where
  getInput : String → String
  pullsGet : PullsGetCall → Except JsError PullsGetResponse

/-- JavaScript whitespace skipped by parseInt. -/
def isJsWhitespace (c : Char) : Bool :=
  c == ' ' || c == '\t' || c == '\n' || c == '\r' || c == '\x0b' || c == '\x0c'

/-- Numeric value of a digit character, hexadecimal digits included. -/
def digitValue (c : Char) : Option Nat :=
  if '0' ≤ c ∧ c ≤ '9' then some (c.toNat - '0'.toNat)
  else if 'a' ≤ c ∧ c ≤ 'f' then some (c.toNat - 'a'.toNat + 10)
  else if 'A' ≤ c ∧ c ≤ 'F' then some (c.toNat - 'A'.toNat + 10)
  else none

/-- Whether a character is a digit of the given radix. -/
def isRadixDigit (radix : Nat) (c : Char) : Bool :=
  match digitValue c with
  | some v => decide (v < radix)
  | none => false

/-- JavaScript parseInt with no radix argument, as used on the pr-number
input: skip leading whitespace, read an optional sign, use radix 16 when the
remainder starts with 0x or 0X and radix 10 otherwise, then read the longest
prefix of digits of that radix; none models NaN (no digits at all). -/
def parseIntJS (s : String) : Option Int :=
  let cs := s.data.dropWhile isJsWhitespace
  let signed : Int × List Char :=
    match cs with
    | '-' :: rest => (-1, rest)
    | '+' :: rest => (1, rest)
    | _ => (1, cs)
  let based : Nat × List Char :=
    match signed.snd with
    | '0' :: 'x' :: rest => (16, rest)
    | '0' :: 'X' :: rest => (16, rest)
    | _ => (10, signed.snd)
  let digits := (based.snd.takeWhile (isRadixDigit based.fst)).filterMap digitValue
  if digits.isEmpty then none
  else some (signed.fst * Int.ofNat (digits.foldl (fun acc d => acc * based.fst + d) 0))

/-- The context.issue.number getter of the actions toolkit collaborator:
in JavaScript, (payload.issue || payload.pull_request || payload).number,
object truthiness deciding the fallback chain. -/
def Context.issueNumber (context : Context) : Option Int :=
  match context.payload.issue with
  | some issue => issue.number
  | none =>
    match context.payload.pull_request with
    | some pr => pr.number
    | none => context.payload.number

/-- getRepositoryInfo of github.ts: the ambient owner/repo pair. -/
def getRepositoryInfo (context : Context) : RepositoryInfo :=
  { owner := context.repo.owner, repo := context.repo.repo }

/-- getPullRequestContext of github.ts:
prNumber = context.issue.number and sha = context.payload.pull_request?.head.sha.
The optional chain guards only the pull_request access: when pull_request is
present but head is absent, reading .sha of undefined throws a TypeError. -/
def getPullRequestContext (context : Context) : Except JsError PullRequestInfo :=
  let prNumber := context.issueNumber
  match context.payload.pull_request with
  | none => Except.ok { sha := none, prNumber := prNumber }
  | some pr =>
    match pr.head with
    | none => Except.error JsError.typeError
    | some head => Except.ok { sha := head.sha, prNumber := prNumber }

/-- getCheckRunContext of github.ts:
actionEvent = context.payload.check_run (dereferenced without optional
chaining, so an absent check_run object throws a TypeError),
prNumber = actionEvent.pull_requests?.[0]?.number, sha = actionEvent.head_sha. -/
def getCheckRunContext (context : Context) : Except JsError PullRequestInfo :=
  match context.payload.check_run with
  | none => Except.error JsError.typeError
  | some actionEvent =>
    let prNumber :=
      (actionEvent.pull_requests.bind List.head?).bind PullRequestRef.number
    Except.ok { sha := actionEvent.head_sha, prNumber := prNumber }

/-- The branch-name derivation of getWorkflowDispatchContext:
context.ref.substring(the length of "refs/heads/"), an unconditional drop of
the first eleven characters. -/
def branchNameOf (ref : String) : String :=
  ref.drop ("refs/heads/".length)

/-- getWorkflowDispatchContext of github.ts, instrumented with the list of
pulls.get calls it performs. When the derived branch name is in the allow-list,
it reads the token and pr-number inputs, calls pulls.get once with the parsed
pull number, and maps the response to its head sha; otherwise it returns the
ambient commit sha without any API call. -/
def getWorkflowDispatchContext (env : ActionEnv) (context : Context) :
    Except JsError PullRequestInfo × List PullsGetCall :=
  let branchName : String := branchNameOf context.ref
  let allowedBranches : List String := ["main", "develop"]
  if branchName ∈ allowedBranches then
    let token := env.getInput "token"
    let prNumber := env.getInput "pr-number"
    let repoInfo := getRepositoryInfo context
    let call : PullsGetCall :=
      { token := token, owner := repoInfo.owner, repo := repoInfo.repo,
        pull_number := parseIntJS prNumber }
    match env.pullsGet call with
    | Except.error e => (Except.error e, [call])
    | Except.ok response =>
      (Except.ok { sha := some response.data.head.sha, prNumber := none }, [call])
  else
    (Except.ok { sha := some context.sha, prNumber := none }, [])

/-- The eventHandlers dispatch table of github.ts: a lookup by event name,
populated for check_run and pull_request only; any other key yields undefined
(none), and invoking undefined as a function throws a TypeError. -/
def eventHandlers (eventName : String) :
    Option (Context → Except JsError PullRequestInfo) :=
  if eventName = "check_run" then some getCheckRunContext
  else if eventName = "pull_request" then some getPullRequestContext
  else none

/-- The result spread-merge of getGitHubContext,
braces getRepositoryInfo() comma spread commitInfo: the owner/repo fields come
from RepositoryInfo and the sha/prNumber fields from PullRequestInfo; the two
key sets are disjoint. -/
def mergeContext (repoInfo : RepositoryInfo) (commitInfo : PullRequestInfo) :
    GitHubContext :=
  { owner := repoInfo.owner, repo := repoInfo.repo,
    sha := commitInfo.sha, prNumber := commitInfo.prNumber }

/-- getGitHubContext of github.ts: dispatch on the event name (the ternary
sends workflow_dispatch to getWorkflowDispatchContext and every other event
through the eventHandlers table, where a missing handler throws), then merge
the commit info with the ambient repository info. The second component is the
list of outbound pulls.get calls performed. -/
def getGitHubContext (env : ActionEnv) (context : Context) :
    Except JsError GitHubContext × List PullsGetCall :=
  let commitInfoWithCalls :=
    if context.eventName ≠ "workflow_dispatch" then
      match eventHandlers context.eventName with
      | some handler => (handler context, [])
      | none => (Except.error JsError.typeError, [])
    else
      getWorkflowDispatchContext env context
  (Except.map (mergeContext (getRepositoryInfo context)) commitInfoWithCalls.fst,
   commitInfoWithCalls.snd)

/-- The branch derivation as the specification words it: strip the
refs/heads/ prefix from the ref (leaving a ref without that prefix intact). -/
def stripRefsHeadsSpec (ref : String) : String :=
  if ref.startsWith "refs/heads/" then ref.drop ("refs/heads/".length) else ref

/-! Concrete sample environments and contexts used to instantiate theorems. -/

/-- A sample action environment: every input reads as "12" and the pulls.get
endpoint always succeeds with head sha "apisha". -/
def sampleEnv : ActionEnv :=
  { getInput := fun _ => "12",
    pullsGet := fun _ => Except.ok { data := { head := { sha := "apisha" } } } }

/-- A webhook payload with none of the read properties present. -/
def emptyPayload : WebhookPayload :=
  { issue := none, pull_request := none, check_run := none, number := none }

/-- A pull_request event whose payload carries issue number 42 and
pull_request.head.sha "abc123". -/
def prContext42 : Context :=
  { eventName := "pull_request", ref := "refs/heads/b", sha := "ambient",
    repo := { owner := "o", repo := "r" },
    payload := { issue := none,
                 pull_request := some { number := some 42,
                                        head := some { sha := some "abc123" } },
                 check_run := none, number := none } }

/-- A pull_request event whose payload lacks the pull_request field. -/
def prNoPayloadContext : Context :=
  { eventName := "pull_request", ref := "refs/heads/b", sha := "ambient",
    repo := { owner := "o", repo := "r" }, payload := emptyPayload }

/-- A pull_request event whose pull_request object lacks a head. -/
def prHeadlessContext : Context :=
  { eventName := "pull_request", ref := "refs/heads/b", sha := "ambient",
    repo := { owner := "o", repo := "r" },
    payload := { issue := none,
                 pull_request := some { number := some 1, head := none },
                 check_run := none, number := none } }

/-- A check_run event with pull_requests numbered 7 and 8 and
head_sha "def456". -/
def checkRunContext78 : Context :=
  { eventName := "check_run", ref := "refs/heads/b", sha := "ambient",
    repo := { owner := "o", repo := "r" },
    payload := { issue := none, pull_request := none,
                 check_run := some { head_sha := some "def456",
                                     pull_requests :=
                                       some [{ number := some 7 },
                                             { number := some 8 }] },
                 number := none } }

/-- A check_run event whose payload has no check_run object at all. -/
def checkRunMissingContext : Context :=
  { eventName := "check_run", ref := "refs/heads/b", sha := "ambient",
    repo := { owner := "o", repo := "r" }, payload := emptyPayload }

/-- A workflow_dispatch event on a feature branch outside the allow-list. -/
def wdFeatureContext : Context :=
  { eventName := "workflow_dispatch", ref := "refs/heads/feature-x",
    sha := "ambient", repo := { owner := "o", repo := "r" },
    payload := emptyPayload }

/-- A workflow_dispatch event on the main branch. -/
def wdMainContext : Context :=
  { eventName := "workflow_dispatch", ref := "refs/heads/main",
    sha := "ambient", repo := { owner := "o", repo := "r" },
    payload := emptyPayload }

/-- A push event, an event kind with no registered handler. -/
def pushContext : Context :=
  { eventName := "push", ref := "refs/heads/b", sha := "ambient",
    repo := { owner := "o", repo := "r" }, payload := emptyPayload }

/-- A check_run event whose check_run object lacks head_sha and has an empty
pull_requests array. -/
def checkRunNoShaContext : Context :=
  { eventName := "check_run", ref := "refs/heads/b", sha := "ambient",
    repo := { owner := "o", repo := "r" },
    payload := { issue := none, pull_request := none,
                 check_run := some { head_sha := none,
                                     pull_requests := some [] },
                 number := none } }

end PixeeActions

namespace PixeeActions

/-- Mapping mergeContext over an ok result fixes the repo fields. -/
theorem mergeOkFields (x : Except JsError PullRequestInfo) (ri : RepositoryInfo)
    (g : GitHubContext) (h : Except.map (mergeContext ri) x = Except.ok g) :
    g.owner = ri.owner ∧ g.repo = ri.repo := by
  cases x with
  | error e => simp [Except.map] at h
  | ok info =>
    simp only [Except.map, Except.ok.injEq] at h
    subst h
    exact ⟨rfl, rfl⟩

/-- C1: for every event kind other than pull_request, check_run and
workflow_dispatch, getGitHubContext fails with a TypeError (the dispatch
table lookup yields undefined and calling it throws), returning no context,
with no recovery and no default. -/
theorem c1_unhandled_event_rejects (env : ActionEnv) (context : Context)
    (h1 : context.eventName ≠ "pull_request")
    (h2 : context.eventName ≠ "check_run")
    (h3 : context.eventName ≠ "workflow_dispatch") :
    (getGitHubContext env context).fst = Except.error JsError.typeError := by
  simp [getGitHubContext, eventHandlers, h1, h2, h3, Except.map]

/-- Witness for C1 at the concrete push event. -/
theorem c1_unhandled_event_rejects_witness :
    (getGitHubContext sampleEnv pushContext).fst = Except.error JsError.typeError :=
  c1_unhandled_event_rejects sampleEnv pushContext (by decide) (by decide)
    (by decide)

/-- C3: for a pull_request event whose payload carries a pull_request object
with a head, getGitHubContext returns prNumber equal to the issue number of
the event and sha equal to the head sha of that pull_request object, merged
with the ambient owner and repo. -/
theorem c3_pull_request_extraction (env : ActionEnv) (context : Context)
    (hev : context.eventName = "pull_request")
    (pr : PullRequestPayload) (hpr : context.payload.pull_request = some pr)
    (head : PRHead) (hhead : pr.head = some head) :
    (getGitHubContext env context).fst = Except.ok
      { owner := context.repo.owner, repo := context.repo.repo,
        sha := head.sha, prNumber := context.issueNumber } := by
  simp [getGitHubContext, eventHandlers, hev, getPullRequestContext, hpr, hhead,
    Except.map, mergeContext, getRepositoryInfo]

/-- Witness for C3 at the concrete payload with issue number 42 and head sha
"abc123": the result is prNumber 42 and sha "abc123" with ambient owner o and
repo r. -/
theorem c3_pull_request_extraction_witness :
    (getGitHubContext sampleEnv prContext42).fst = Except.ok
      { owner := "o", repo := "r", sha := some "abc123", prNumber := some 42 } :=
  c3_pull_request_extraction sampleEnv prContext42 rfl _ rfl _ rfl

/-- C5: for a check_run event whose payload carries a check_run object,
getGitHubContext succeeds with sha the head_sha of the check run and prNumber
the number of the first entry of its pull_requests array; an empty or absent
array yields no prNumber, without error. -/
theorem c5_check_run_extraction (env : ActionEnv) (context : Context)
    (hev : context.eventName = "check_run")
    (cr : CheckRunPayload) (hcr : context.payload.check_run = some cr) :
    (getGitHubContext env context).fst = Except.ok
      { owner := context.repo.owner, repo := context.repo.repo,
        sha := cr.head_sha,
        prNumber :=
          match cr.pull_requests with
          | some (p :: _) => p.number
          | some [] => none
          | none => none } := by
  have hnum : ((cr.pull_requests.bind List.head?).bind PullRequestRef.number) =
      (match cr.pull_requests with
       | some (p :: _) => p.number
       | some [] => none
       | none => none) := by
    cases hpq : cr.pull_requests with
    | none => rfl
    | some l => cases l <;> rfl
  simp [getGitHubContext, eventHandlers, hev, getCheckRunContext, hcr,
    Except.map, mergeContext, getRepositoryInfo, hnum]

/-- Witness for C5 at the concrete check_run payload with pull_requests
numbered 7 and 8 and head_sha "def456": the first entry wins. -/
theorem c5_check_run_extraction_witness :
    (getGitHubContext sampleEnv checkRunContext78).fst = Except.ok
      { owner := "o", repo := "r", sha := some "def456", prNumber := some 7 } :=
  c5_check_run_extraction sampleEnv checkRunContext78 rfl _ rfl

/-- C9: whenever getGitHubContext succeeds, the owner and repo fields of the
result are exactly the ambient repository info of the trigger context; the
event-derived PullRequestInfo never overwrites them, since the merge writes
only the disjoint sha and prNumber fields. -/
theorem c9_repo_fields_ambient (env : ActionEnv) (context : Context)
    (g : GitHubContext) (h : (getGitHubContext env context).fst = Except.ok g) :
    g.owner = (getRepositoryInfo context).owner ∧
    g.repo = (getRepositoryInfo context).repo := by
  exact mergeOkFields _ _ _ h

/-- Witness for C9 at the concrete pull_request event. -/
theorem c9_repo_fields_ambient_witness :
    ({ owner := "o", repo := "r", sha := some "abc123",
       prNumber := some 42 } : GitHubContext).owner =
      (getRepositoryInfo prContext42).owner ∧
    ({ owner := "o", repo := "r", sha := some "abc123",
       prNumber := some 42 } : GitHubContext).repo =
      (getRepositoryInfo prContext42).repo :=
  c9_repo_fields_ambient sampleEnv prContext42 _ rfl

/-- C10: for a check_run event whose payload has no check_run object at all,
getGitHubContext fails with a TypeError: the handler dereferences the
check_run object without optional chaining. -/
theorem c10_missing_check_run_throws (env : ActionEnv) (context : Context)
    (hev : context.eventName = "check_run")
    (hcr : context.payload.check_run = none) :
    (getGitHubContext env context).fst = Except.error JsError.typeError := by
  simp [getGitHubContext, eventHandlers, hev, getCheckRunContext, hcr,
    Except.map]

/-- Witness for C10 at the concrete check_run event with an empty payload. -/
theorem c10_missing_check_run_throws_witness :
    (getGitHubContext sampleEnv checkRunMissingContext).fst =
      Except.error JsError.typeError :=
  c10_missing_check_run_throws sampleEnv checkRunMissingContext rfl rfl

/-- C6: for a workflow_dispatch event whose derived branch name is outside
the allow-list of main and develop, getGitHubContext returns the ambient
commit sha of the context with no prNumber, and performs no outbound API
call. -/
theorem c6_dispatch_disallowed_branch (env : ActionEnv) (context : Context)
    (hev : context.eventName = "workflow_dispatch")
    (hbr : branchNameOf context.ref ∉ (["main", "develop"] : List String)) :
    getGitHubContext env context =
      (Except.ok { owner := context.repo.owner, repo := context.repo.repo,
                   sha := some context.sha, prNumber := none },
       []) := by
  simp [getGitHubContext, hev, getWorkflowDispatchContext, hbr, Except.map,
    mergeContext, getRepositoryInfo]

/-- Witness for C6 at the concrete workflow_dispatch event on branch
feature-x. -/
theorem c6_dispatch_disallowed_branch_witness :
    getGitHubContext sampleEnv wdFeatureContext =
      (Except.ok { owner := "o", repo := "r", sha := some "ambient",
                   prNumber := none },
       []) :=
  c6_dispatch_disallowed_branch sampleEnv wdFeatureContext rfl (by decide)

/-- C7: for a workflow_dispatch event whose derived branch name is in the
allow-list, getGitHubContext performs exactly one pulls.get call, whose
pull_number is the integer parsed from the pr-number input, and when that
call succeeds the result sha is the head sha of the API response, with no
prNumber. -/
theorem c7_dispatch_allowed_branch (env : ActionEnv) (context : Context)
    (hev : context.eventName = "workflow_dispatch")
    (hbr : branchNameOf context.ref ∈ (["main", "develop"] : List String))
    (n : Int) (hn : parseIntJS (env.getInput "pr-number") = some n)
    (resp : PullsGetResponse)
    (hresp : env.pullsGet
        { token := env.getInput "token", owner := context.repo.owner,
          repo := context.repo.repo, pull_number := some n } =
      Except.ok resp) :
    getGitHubContext env context =
      (Except.ok { owner := context.repo.owner, repo := context.repo.repo,
                   sha := some resp.data.head.sha, prNumber := none },
       [{ token := env.getInput "token", owner := context.repo.owner,
          repo := context.repo.repo, pull_number := some n }]) := by
  simp [getGitHubContext, hev, getWorkflowDispatchContext, hbr,
    getRepositoryInfo, hn, hresp, Except.map, mergeContext]

/-- Witness for C7 at the concrete workflow_dispatch event on main, with the
sample environment whose pr-number input reads "12" and whose API returns
head sha "apisha". -/
theorem c7_dispatch_allowed_branch_witness :
    getGitHubContext sampleEnv wdMainContext =
      (Except.ok { owner := "o", repo := "r", sha := some "apisha",
                   prNumber := none },
       [{ token := "12", owner := "o", repo := "r",
          pull_number := some 12 }]) :=
  c7_dispatch_allowed_branch sampleEnv wdMainContext rfl (by decide) 12
    (by decide) _ rfl

/-- C8 counterexample: on the ref "main", which does not start with
refs/heads/, the code derives the empty branch name, while prefix-stripping
as the claim words it would leave "main" intact. -/
theorem c8_counterexample :
    branchNameOf "main" = "" ∧ stripRefsHeadsSpec "main" = "main" ∧
    branchNameOf "main" ≠ stripRefsHeadsSpec "main" := by
  decide

/-- C8 (amended): for every ref of the form refs/heads/ followed by a branch
name, the derived branch name is exactly that suffix; on refs that do not
start with refs/heads/ the code still drops the first eleven characters
unconditionally, so the derivation is not prefix-stripping there. -/
theorem c8_branch_name_strips_heads (s : String) :
    branchNameOf ("refs/heads/" ++ s) = s := by
  unfold branchNameOf
  rw [String.drop_eq]
  have h0 : "refs/heads/".length = 11 := rfl
  have h1 : ("refs/heads/" ++ s).data =
      ['r','e','f','s','/','h','e','a','d','s','/'] ++ s.data := rfl
  rw [h0, h1]
  have h3 : (['r','e','f','s','/','h','e','a','d','s','/'] ++ s.data).drop 11 =
      s.data := by simp
  rw [h3]

/-- C4 counterexample: a pull_request event whose pull_request object lacks a
head makes getGitHubContext throw a TypeError, contradicting the claim that
the normalizer never throws on partial pull_request payloads. -/
theorem c4_counterexample :
    (getGitHubContext sampleEnv prHeadlessContext).fst =
      Except.error JsError.typeError := rfl

/-- C4 (amended): the optional chain guards only the pull_request access: a
payload lacking the pull_request field silently yields no sha without error,
but a pull_request object lacking a head makes getGitHubContext throw a
TypeError. -/
theorem c4_optional_chain_guards_only_pull_request (env : ActionEnv)
    (context : Context) (hev : context.eventName = "pull_request") :
    (context.payload.pull_request = none →
      (getGitHubContext env context).fst = Except.ok
        { owner := context.repo.owner, repo := context.repo.repo,
          sha := none, prNumber := context.issueNumber }) ∧
    (∀ pr, context.payload.pull_request = some pr → pr.head = none →
      (getGitHubContext env context).fst = Except.error JsError.typeError) := by
  constructor
  · intro hnone
    simp [getGitHubContext, eventHandlers, hev, getPullRequestContext, hnone,
      Except.map, mergeContext, getRepositoryInfo]
  · intro pr hpr hhead
    simp [getGitHubContext, eventHandlers, hev, getPullRequestContext, hpr,
      hhead, Except.map]

/-- Witness for the amended C4 at the concrete pull_request event with an
empty payload: no throw, sha absent. -/
theorem c4_optional_chain_guards_only_pull_request_witness :
    (getGitHubContext sampleEnv prNoPayloadContext).fst = Except.ok
      { owner := "o", repo := "r", sha := none, prNumber := none } :=
  (c4_optional_chain_guards_only_pull_request sampleEnv prNoPayloadContext
    rfl).1 rfl

/-- C2 counterexample: a check_run event whose check_run object lacks
head_sha makes getGitHubContext succeed with an absent sha, contradicting the
claim that the sha field of every returned context is a present, non-empty
string. -/
theorem c2_counterexample :
    (getGitHubContext sampleEnv checkRunNoShaContext).fst = Except.ok
      { owner := "o", repo := "r", sha := none, prNumber := none } := rfl

/-- C2 (amended): the code validates nothing, so the invariant holds only for
well-formed inputs: when the ambient sha is non-empty, pull_request events
carry a pull_request object with a head whose sha is a non-empty string, the
issue number is positive when present, check_run objects carry a non-empty
head_sha and positive pull-request numbers, and API responses carry a
non-empty head sha, then every context getGitHubContext returns has a
present, non-empty sha, and its prNumber, when present, is positive. -/
theorem c2_sha_prnumber_wellformed (env : ActionEnv) (context : Context)
    (hsha : context.sha ≠ "")
    (hprsome : context.eventName = "pull_request" →
      ∃ pr, context.payload.pull_request = some pr)
    (hpr : ∀ pr, context.payload.pull_request = some pr →
      ∃ hd s, pr.head = some hd ∧ hd.sha = some s ∧ s ≠ "")
    (hiss : ∀ n, context.issueNumber = some n → (0 : Int) < n)
    (hcrsha : ∀ cr, context.payload.check_run = some cr →
      ∃ s, cr.head_sha = some s ∧ s ≠ "")
    (hcrnum : ∀ cr, context.payload.check_run = some cr →
      ∀ p, cr.pull_requests.bind List.head? = some p →
      ∀ n, p.number = some n → (0 : Int) < n)
    (happ : ∀ call resp, env.pullsGet call = Except.ok resp →
      resp.data.head.sha ≠ "")
    (g : GitHubContext)
    (hok : (getGitHubContext env context).fst = Except.ok g) :
    (∃ s, g.sha = some s ∧ s ≠ "") ∧
    (∀ n, g.prNumber = some n → (0 : Int) < n) := by
  by_cases hwd : context.eventName = "workflow_dispatch"
  · by_cases hbr : branchNameOf context.ref ∈ (["main", "develop"] : List String)
    · cases hcall : env.pullsGet
          { token := env.getInput "token", owner := context.repo.owner,
            repo := context.repo.repo,
            pull_number := parseIntJS (env.getInput "pr-number") } with
      | error e =>
        simp [getGitHubContext, hwd, getWorkflowDispatchContext, hbr,
          getRepositoryInfo, hcall, Except.map] at hok
      | ok resp =>
        simp [getGitHubContext, hwd, getWorkflowDispatchContext, hbr,
          getRepositoryInfo, hcall, Except.map, mergeContext] at hok
        subst hok
        refine ⟨⟨resp.data.head.sha, rfl, happ _ _ hcall⟩, ?_⟩
        intro n hn
        simp at hn
    · simp [getGitHubContext, hwd, getWorkflowDispatchContext, hbr,
        Except.map, mergeContext, getRepositoryInfo] at hok
      subst hok
      refine ⟨⟨context.sha, rfl, hsha⟩, ?_⟩
      intro n hn
      simp at hn
  · by_cases hev : context.eventName = "pull_request"
    · obtain ⟨pr, hpr0⟩ := hprsome hev
      obtain ⟨hd, s, hhead, hs, hsne⟩ := hpr pr hpr0
      simp [getGitHubContext, eventHandlers, hev, getPullRequestContext, hpr0,
        hhead, Except.map, mergeContext, getRepositoryInfo] at hok
      subst hok
      exact ⟨⟨s, by simp [hs], hsne⟩, hiss⟩
    · by_cases hcrev : context.eventName = "check_run"
      · cases hcr0 : context.payload.check_run with
        | none =>
          simp [getGitHubContext, eventHandlers, hcrev, getCheckRunContext,
            hcr0, Except.map] at hok
        | some cr =>
          obtain ⟨s, hcs, hsne⟩ := hcrsha cr hcr0
          simp [getGitHubContext, eventHandlers, hcrev, getCheckRunContext,
            hcr0, Except.map, mergeContext, getRepositoryInfo] at hok
          subst hok
          refine ⟨⟨s, by simp [hcs], hsne⟩, ?_⟩
          intro n hn
          simp only [Option.bind_eq_some] at hn
          obtain ⟨p, ⟨a, ha, hh⟩, hpn⟩ := hn
          refine hcrnum cr hcr0 p ?_ n hpn
          rw [ha]
          simpa using hh
      · simp [getGitHubContext, eventHandlers, hev, hcrev, hwd,
          Except.map] at hok

/-- Witness for the amended C2 at the concrete pull_request event with issue
number 42 and head sha "abc123". -/
theorem c2_sha_prnumber_wellformed_witness :
    (∃ s, (some "abc123" : Option String) = some s ∧ s ≠ "") ∧
    (∀ n, (some 42 : Option Int) = some n → (0 : Int) < n) :=
  c2_sha_prnumber_wellformed sampleEnv prContext42 (by decide)
    (fun _ => ⟨_, rfl⟩)
    (by intro pr hpr; cases hpr; exact ⟨_, "abc123", rfl, rfl, by decide⟩)
    (by intro n hn; cases hn; decide)
    (by intro cr hcr; cases hcr)
    (by intro cr hcr; cases hcr)
    (by intro call resp hresp; cases hresp; decide)
    { owner := "o", repo := "r", sha := some "abc123", prNumber := some 42 }
    rfl

end PixeeActions
